import Mathlib

/-!
# Verification of the lighthouse stateful log-pattern observer

Shallow embedding of `src/lighthouse/observers/stateful_log_pattern.py`
(together with `get_file_fingerprint` from `src/lighthouse/platform.py`),
the restart-safe rotation-aware log tailer, and proofs about its rotation
classifier, tailer, state loading and pattern matching.

Modelling conventions:
* File text is `List Char`; the files at hand are ASCII, so one character is
  one byte and Python's byte offsets coincide with character counts.
* A file on disk is its POSIX fingerprint `(st_dev, st_ino)` plus its content;
  an absent file is `none`.  `get_file_fingerprint` returns `none` exactly
  when the path does not exist (platform.py returns the `(st_dev, st_ino)`
  pair for any existing file on POSIX).
* One poll sees one atomic filesystem snapshot (`FS`).
* Python exceptions are modelled by explicit outcome types (`Option String`
  for the read step, `PyExc` for state loading); `datetime.now()` timestamps
  are dropped (pure wall-clock noise, asserted by no claim).
-/

set_option autoImplicit false

namespace Lighthouse

/-- POSIX file fingerprint: the `(st_dev, st_ino)` pair that
`get_file_fingerprint` (platform.py) returns for an existing file. -/
abbrev Fingerprint := Nat × Nat

/-- Filesystem snapshot for one poll: the main log file (fingerprint and
decoded text content, `none` when absent) and the rotated sibling
`<path>.1` (only its fingerprint matters; `none` when absent). -/
structure FS where
  main : Option (Fingerprint × List Char)
  rotated : Option Fingerprint
deriving DecidableEq

/-- `get_file_fingerprint(str(log_file))` on the main path: `None` when the
path does not exist, otherwise the `(st_dev, st_ino)` pair (platform.py,
POSIX branch). -/
def get_file_fingerprint (fs : FS) : Option Fingerprint :=
  fs.main.map Prod.fst

/-- `stateful_log_pattern.py` lines 106-108: `current_rotated_fingerprint`
is `None` unless `rotated_log_file.exists()`, else its fingerprint. -/
def current_rotated_fingerprint (fs : FS) : Option Fingerprint :=
  fs.rotated

/-- The observer's persisted state dict:
`{"fingerprint": ..., "offset": ..., "rotated_fingerprint": ...}`. -/
structure TailState where
  fingerprint : Option Fingerprint
  offset : Nat
  rotated_fingerprint : Option Fingerprint
deriving DecidableEq

/-- The all-defaults state `_load_state` builds when no state file exists:
`{"fingerprint": None, "offset": 0, "rotated_fingerprint": None}`. -/
def defaultState : TailState :=
  { fingerprint := none, offset := 0, rotated_fingerprint := none }

/-- `NoRotationHandler.handle`: continue from the stored offset
(`state.get("offset", 0)`), except that a `stat()` showing
`file_size < offset` (size regression) resets to 0, and a
`FileNotFoundError` from `stat()` also resets to 0. -/
def NoRotationHandler.handle (fs : FS) (state : TailState) : Nat :=
  let offset := state.offset
  match fs.main with
  | none => 0
  | some (_, content) => if content.length < offset then 0 else offset

/-- `CopytruncateRotationHandler.handle`: always reset the offset to 0;
the state dict is not touched. -/
def CopytruncateRotationHandler.handle (_state : TailState) : Nat :=
  0

/-- `MoveCreateRotationHandler.handle`: reset the offset to 0 and store the
current main-file fingerprint in `state["fingerprint"]`. -/
def MoveCreateRotationHandler.handle (fs : FS) (state : TailState) :
    Nat × TailState :=
  (0, { state with fingerprint := get_file_fingerprint fs })

/-- The three rotation classifications, one per handler subclass of
`RotationHandler` dispatched by `RotationDetector.detect_and_handle`. -/
inductive RotationKind
  | noRotation
  | copytruncate
  | moveCreate
deriving DecidableEq

/-- Which handler `RotationDetector.detect_and_handle` dispatches to, with
exactly its comparison structure (lines 119-128): if the stored main
fingerprint equals the current one, a changed rotated fingerprint means
copy-truncate and an unchanged one means no rotation; a changed main
fingerprint means move/create. -/
def RotationDetector.branch_taken (fs : FS) (state : TailState) :
    RotationKind :=
  if state.fingerprint = get_file_fingerprint fs then
    if state.rotated_fingerprint ≠ current_rotated_fingerprint fs then
      RotationKind.copytruncate
    else
      RotationKind.noRotation
  else
    RotationKind.moveCreate

/-- `RotationDetector.detect_and_handle` (lines 90-128): read the current and
stored fingerprints, refresh `state["rotated_fingerprint"]` to the current
rotated fingerprint in every branch, then dispatch on the comparisons and
return the offset the chosen handler yields together with the updated
state dict. -/
def RotationDetector.detect_and_handle (fs : FS) (state : TailState) :
    Nat × TailState :=
  let current_fingerprint := get_file_fingerprint fs
  let stored_fingerprint := state.fingerprint
  let stored_rotated_fingerprint := state.rotated_fingerprint
  let state' := { state with
    rotated_fingerprint := current_rotated_fingerprint fs }
  if stored_fingerprint = current_fingerprint then
    if stored_rotated_fingerprint ≠ current_rotated_fingerprint fs then
      (CopytruncateRotationHandler.handle state', state')
    else
      (NoRotationHandler.handle fs state', state')
  else
    MoveCreateRotationHandler.handle fs state'

/-! ## Tailer: seek / readlines / tell (`Observer.observe` lines 196-200) -/

/-- `f.readlines()` on text already positioned at the read start: split into
lines, each keeping its terminating newline; a final line without a
trailing newline is returned as-is. -/
def readlinesAux : List Char → List Char → List (List Char)
  | [], acc => if acc.isEmpty then [] else [acc.reverse]
  | c :: rest, acc =>
      if c = '\n' then (acc.reverse ++ ['\n']) :: readlinesAux rest []
      else readlinesAux rest (c :: acc)

/-- `f.readlines()` from the start of the given text. -/
def readlines (content : List Char) : List (List Char) :=
  readlinesAux content []

/-- The read step of `Observer.observe`: `f.seek(offset)` (no clamping of any
kind), `lines = f.readlines()`, `new_offset = f.tell()`.  Seeking past
end-of-file is permitted and reads nothing, in which case `tell()` still
reports the seek target, so `new_offset = max offset content.length`. -/
def Observer.tailRead (content : List Char) (offset : Nat) :
    List (List Char) × Nat :=
  (readlines (content.drop offset), max offset content.length)

/-! ## Match engine (`Observer.observe` lines 211-217) -/

/-- Python's `str.strip()` whitespace set, restricted to ASCII (the content
in scope is ASCII): space, tab, newline, carriage return, vertical tab,
form feed. -/
def isPySpace (c : Char) : Bool :=
  c = ' ' || c = '\t' || c = '\n' || c = '\r' ||
    c = Char.ofNat 11 || c = Char.ofNat 12

/-- `line.strip()`: drop leading and trailing whitespace. -/
def pyStrip (s : List Char) : List Char :=
  ((s.dropWhile isPySpace).reverse.dropWhile isPySpace).reverse

/-- A pattern is modelled as its `re.search` behaviour: the predicate
`fun line => re.search(pattern, line) is not None`. -/
abbrev Pattern := List Char → Bool

/-- `re.search` for a pattern string containing no regex metacharacters is
substring search; used to instantiate `Pattern` in concrete scenarios. -/
def containsSub (pat : List Char) : List Char → Bool
  | [] => pat.isEmpty
  | c :: cs => pat.isPrefixOf (c :: cs) || containsSub pat cs

/-- The match loop of `Observer.observe`: for each line in order, the first
pattern that matches appends `line.strip()` to `matched_lines` and the
inner loop breaks, so each line is reported at most once. -/
def match_lines (patterns : List Pattern) (lines : List (List Char)) :
    List (List Char) :=
  lines.filterMap fun line =>
    if patterns.any (fun p => p line) then some (pyStrip line) else none

/-! ## Observation result (`lighthouse/core.py` ObservationResult) -/

/-- The metadata dicts `Observer.observe` can attach (the `datetime.now()`
timestamp is not modelled). -/
inductive Metadata
  /-- `{"status": s}` — emitted with `s = "file not found"`. -/
  | status (s : String)
  /-- `{"error": str(e)}` on a read exception. -/
  | readError (e : String)
  /-- `{"matched_lines": ..., "log_file": ...}` on a match. -/
  | matches (matched_lines : List (List Char)) (log_file : String)
  /-- `{"lines_read": n}` when nothing matched. -/
  | linesRead (lines_read : Nat)
deriving DecidableEq

/-- `ObservationResult(value=..., metadata=...)` minus the timestamp. -/
structure ObservationResult where
  value : Bool
  metadata : Metadata
deriving DecidableEq

/-- The status string `Observer.observe` emits for a missing target file. -/
def statusFileNotFound : String :=
  "file not found"

/-- `Observer.observe` (lines 181-234).  Inputs: the log file's name (used in
match metadata), the filesystem snapshot, the outcome of the read step
(`some msg` when `open`/`readlines` raises an exception whose `str` is
`msg`, `none` when the read succeeds), the pattern list and the in-memory
state.  Output: the `ObservationResult`, the in-memory state after the
call, and whether `_save_state` was reached (state persisted).

Faithful control flow: missing file returns early with status metadata and
touches nothing; otherwise `detect_and_handle` runs (mutating the state
dict), then the read; a read exception returns the error result without
persisting; otherwise `state["offset"] = new_offset`, the state is saved,
and the result reports matched lines or the count of lines read. -/
def Observer.observe (log_file : String) (fs : FS) (readErr : Option String)
    (patterns : List Pattern) (state : TailState) :
    ObservationResult × TailState × Bool :=
  match fs.main with
  | none =>
      ({ value := false, metadata := Metadata.status statusFileNotFound },
        state, false)
  | some (_, content) =>
      let od := RotationDetector.detect_and_handle fs state
      match readErr with
      | some msg =>
          ({ value := false, metadata := Metadata.readError msg },
            od.2, false)
      | none =>
          let lt := Observer.tailRead content od.1
          let matched_lines := match_lines patterns lt.1
          let state2 := { od.2 with offset := lt.2 }
          if matched_lines.isEmpty then
            ({ value := false, metadata := Metadata.linesRead lt.1.length },
              state2, true)
          else
            ({ value := true,
               metadata := Metadata.matches matched_lines log_file },
              state2, true)

/-! ## State loading (`Observer._load_state`, lines 152-168) -/

/-- The Python exceptions the body of `_load_state` can raise:
`OSError` from `open`/read, `UnicodeDecodeError` from decoding non-UTF-8
bytes, `json.JSONDecodeError` from parsing, `KeyError`, and `TypeError`
from `"rotated_fingerprint" not in state` / item assignment when the
parsed JSON is not an object.  The `except` clause catches only
`json.JSONDecodeError` and `KeyError`. -/
inductive PyExc
  | osError
  | unicodeDecodeError
  | jsonDecodeError
  | keyError
  | typeError
deriving DecidableEq

/-- What reading and parsing the state file yields: the file is missing, or
the body raises an exception, or `json.load` returns an object holding
the state (`hasRotated` records whether the `"rotated_fingerprint"` key
was present; when absent the code fills in `None`). -/
inductive StateFileOutcome
  | missing
  | raises (e : PyExc)
  | parsed (hasRotated : Bool) (st : TailState)

/-- `Observer._load_state`: defaults when no state file exists; on an
exception, defaults if it is `json.JSONDecodeError` or `KeyError` and
propagation (`Except.error`) otherwise; on a parsed object, the stored
state with `"rotated_fingerprint"` defaulted to `None` if absent. -/
def Observer.load_state : StateFileOutcome → Except PyExc TailState
  | StateFileOutcome.missing => Except.ok defaultState
  | StateFileOutcome.raises e =>
      if e = PyExc.jsonDecodeError ∨ e = PyExc.keyError then
        Except.ok defaultState
      else
        Except.error e
  | StateFileOutcome.parsed hasRotated st =>
      Except.ok
        (if hasRotated then st else { st with rotated_fingerprint := none })

/-! ## Concrete inputs used by the scenario claims -/

/-- The initial file content of the spec's concrete scenario (§8). -/
def scenarioText1 : String :=
  "line 1\nERROR: line 2\nline 3\n"

/-- The appended content of the spec's concrete scenario (§8). -/
def scenarioText2 : String :=
  "ERROR: line 4\n"

/-- The pattern string of the concrete scenario. -/
def errorPatText : String :=
  "ERROR"

/-- The configured pattern of the concrete scenario, as its `re.search`
behaviour (a plain string with no metacharacters: substring search). -/
def errorPattern : Pattern :=
  containsSub errorPatText.toList

/-- Log-file name used in scenario metadata. -/
def scenarioLog : String :=
  "app.log"

/-- Filesystem on the first scenario poll: the main file holds
`scenarioText1`, no rotated sibling. -/
def scenarioFS1 : FS :=
  { main := some ((1, 2), scenarioText1.toList), rotated := none }

/-- Filesystem on the second scenario poll: `scenarioText2` has been
appended to the same file (same fingerprint). -/
def scenarioFS2 : FS :=
  { main := some ((1, 2), scenarioText1.toList ++ scenarioText2.toList),
    rotated := none }

/-- The stripped matched line of the first scenario poll. -/
def scenarioMatch1 : String :=
  "ERROR: line 2"

/-- The stripped matched line of the second scenario poll. -/
def scenarioMatch2 : String :=
  "ERROR: line 4"

/-! ## Helper lemmas -/

/-- `detect_and_handle` never writes the `"offset"` key: the returned state
dict carries the offset it was given (only `observe` assigns
`state["offset"]`). -/
theorem detect_and_handle_offset_eq (fs : FS) (state : TailState) :
    (RotationDetector.detect_and_handle fs state).2.offset = state.offset := by
  unfold RotationDetector.detect_and_handle MoveCreateRotationHandler.handle
  dsimp only
  split
  · split <;> rfl
  · rfl

/-- The head of `dropWhile p` never satisfies `p`. -/
theorem headOfDropWhile (p : Char → Bool) (l : List Char) (c : Char)
    (h : (l.dropWhile p).head? = some c) : p c = false := by
  induction l with
  | nil => simp [List.dropWhile] at h
  | cons a l ih =>
      rw [List.dropWhile_cons] at h
      split at h
      · exact ih h
      · rename_i hpa
        simp only [List.head?_cons, Option.some.injEq] at h
        subst h
        exact Bool.not_eq_true _ ▸ hpa

/-- `dropWhile p l` is a suffix of `l`. -/
theorem dropWhileIsSuffix (p : Char → Bool) (l : List Char) :
    ∃ u, u ++ l.dropWhile p = l := by
  induction l with
  | nil => exact ⟨[], rfl⟩
  | cons a l ih =>
      rw [List.dropWhile_cons]
      split
      · obtain ⟨u, hu⟩ := ih
        exact ⟨a :: u, by simp [hu]⟩
      · exact ⟨[], rfl⟩

/-- The first character of a stripped line is not whitespace. -/
theorem pyStrip_head (s : List Char) (c : Char)
    (h : (pyStrip s).head? = some c) : isPySpace c = false := by
  unfold pyStrip at h
  obtain ⟨u, hu⟩ :=
    dropWhileIsSuffix isPySpace (s.dropWhile isPySpace).reverse
  have hrev :
      ((s.dropWhile isPySpace).reverse.dropWhile isPySpace).reverse ++
        u.reverse = s.dropWhile isPySpace := by
    have := congrArg List.reverse hu
    simpa [List.reverse_append] using this
  rcases hd :
      ((s.dropWhile isPySpace).reverse.dropWhile isPySpace).reverse with
    _ | ⟨x, xs⟩
  · rw [hd] at h
    simp at h
  · rw [hd] at h
    simp only [List.head?_cons, Option.some.injEq] at h
    rw [h] at hd
    rw [hd] at hrev
    have hhead : (s.dropWhile isPySpace).head? = some c := by
      rw [← hrev]
      rfl
    exact headOfDropWhile isPySpace s c hhead

/-- The last character of a stripped line is not whitespace; in particular
the terminating newline is gone. -/
theorem pyStrip_getLast (s : List Char) (c : Char)
    (h : (pyStrip s).getLast? = some c) : isPySpace c = false := by
  unfold pyStrip at h
  rw [List.getLast?_reverse] at h
  exact headOfDropWhile isPySpace (s.dropWhile isPySpace).reverse c h

/-! ## Claims about the rotation classifier -/

/-- C1 (counterexample): on the very first poll (all-defaults state, both
stored identities `None`) with the main file existing, the classifier does
NOT take the no-rotation branch: `stored_fingerprint` is `None` while the
existing file's fingerprint is a concrete pair, so the outer comparison
fails and the move/create branch runs. -/
theorem c1_first_poll_counterexample :
    RotationDetector.branch_taken
        { main := some ((1, 2), ['x']), rotated := none } defaultState =
      RotationKind.moveCreate ∧
    RotationKind.moveCreate ≠ RotationKind.noRotation := by
  exact ⟨rfl, by decide⟩

/-- C1 (amended): on the very first poll of a target (all-defaults state)
when the main file exists, the classifier takes the move/create branch —
the stored `None` main fingerprint differs from the existing file's
fingerprint — returning offset 0 and adopting the current main
fingerprint; `None == None` makes only the rotated-sibling comparison
"unchanged", which merely prevents a spurious copy-truncate
classification. -/
theorem c1_first_poll_is_move_create (fs : FS) (fp : Fingerprint)
    (content : List Char) (hmain : fs.main = some (fp, content)) :
    RotationDetector.branch_taken fs defaultState =
        RotationKind.moveCreate ∧
    RotationDetector.detect_and_handle fs defaultState =
      (0, { fingerprint := some fp, offset := 0,
            rotated_fingerprint := fs.rotated }) := by
  have hfp : get_file_fingerprint fs = some fp := by
    rw [get_file_fingerprint, hmain]
    rfl
  constructor
  · rw [RotationDetector.branch_taken, hfp]
    rw [if_neg]
    intro hcontra
    exact Option.noConfusion hcontra
  · rw [RotationDetector.detect_and_handle]
    rw [hfp]
    rw [if_neg]
    · rw [MoveCreateRotationHandler.handle, hfp]
      rfl
    · intro hcontra
      exact Option.noConfusion hcontra

/-- C1 witness. -/
theorem c1_first_poll_is_move_create_witness :
    RotationDetector.branch_taken
        { main := some ((7, 9), ['a', 'b']), rotated := some (1, 1) }
        defaultState = RotationKind.moveCreate ∧
    RotationDetector.detect_and_handle
        { main := some ((7, 9), ['a', 'b']), rotated := some (1, 1) }
        defaultState =
      (0, { fingerprint := some (7, 9), offset := 0,
            rotated_fingerprint := some (1, 1) }) :=
  c1_first_poll_is_move_create
    { main := some ((7, 9), ['a', 'b']), rotated := some (1, 1) }
    (7, 9) ['a', 'b'] rfl

/-- C2: whenever the stored main fingerprint equals the current one and the
stored rotated-sibling fingerprint differs from the current one, the
classifier returns offset 0 (copy-truncate), with no condition on the
main file's size — in particular also when the current size is at least
the stored offset. -/
theorem c2_copytruncate_resets_offset (fs : FS) (state : TailState)
    (hmain : state.fingerprint = get_file_fingerprint fs)
    (hrot : state.rotated_fingerprint ≠ current_rotated_fingerprint fs) :
    (RotationDetector.detect_and_handle fs state).1 = 0 := by
  rw [RotationDetector.detect_and_handle]
  rw [if_pos hmain, if_pos hrot]
  rfl

/-- C2 witness: stored offset 1 with current size 2 (no size regression),
main fingerprint unchanged, rotated sibling's fingerprint changed. -/
theorem c2_copytruncate_resets_offset_witness :
    (RotationDetector.detect_and_handle
        { main := some ((1, 2), ['a', 'b']), rotated := some (3, 4) }
        { fingerprint := some (1, 2), offset := 1,
          rotated_fingerprint := some (9, 9) }).1 = 0 :=
  c2_copytruncate_resets_offset
    { main := some ((1, 2), ['a', 'b']), rotated := some (3, 4) }
    { fingerprint := some (1, 2), offset := 1,
      rotated_fingerprint := some (9, 9) }
    (by decide) (by decide)

/-- C3: whenever the stored main fingerprint differs from the current one
(no condition on the rotated sibling), the classifier returns offset 0
and the returned state's main fingerprint is the current one
(move/create). -/
theorem c3_move_create_rebinding (fs : FS) (state : TailState)
    (hmain : state.fingerprint ≠ get_file_fingerprint fs) :
    (RotationDetector.detect_and_handle fs state).1 = 0 ∧
    (RotationDetector.detect_and_handle fs state).2.fingerprint =
      get_file_fingerprint fs := by
  rw [RotationDetector.detect_and_handle]
  rw [if_neg hmain]
  exact ⟨rfl, rfl⟩

/-- C3 witness. -/
theorem c3_move_create_rebinding_witness :
    (RotationDetector.detect_and_handle
        { main := some ((5, 6), ['a']), rotated := none }
        { fingerprint := some (1, 2), offset := 7,
          rotated_fingerprint := none }).1 = 0 ∧
    (RotationDetector.detect_and_handle
        { main := some ((5, 6), ['a']), rotated := none }
        { fingerprint := some (1, 2), offset := 7,
          rotated_fingerprint := none }).2.fingerprint =
      get_file_fingerprint { main := some ((5, 6), ['a']), rotated := none } :=
  c3_move_create_rebinding
    { main := some ((5, 6), ['a']), rotated := none }
    { fingerprint := some (1, 2), offset := 7, rotated_fingerprint := none }
    (by decide)

/-- C4: with both fingerprints unchanged and the main file present, the
classifier returns 0 when the current size is strictly below the stored
offset, and the stored offset unchanged otherwise. -/
theorem c4_no_rotation_size_regression (fs : FS) (state : TailState)
    (fp : Fingerprint) (content : List Char)
    (hfile : fs.main = some (fp, content))
    (hmain : state.fingerprint = get_file_fingerprint fs)
    (hrot : state.rotated_fingerprint = current_rotated_fingerprint fs) :
    (RotationDetector.detect_and_handle fs state).1 =
      if content.length < state.offset then 0 else state.offset := by
  rw [RotationDetector.detect_and_handle]
  rw [if_pos hmain, if_neg (by simp [hrot])]
  rw [NoRotationHandler.handle, hfile]

/-- C4 witness: a size regression (size 1 below offset 5) resets to 0. -/
theorem c4_no_rotation_size_regression_witness :
    (RotationDetector.detect_and_handle
        { main := some ((1, 2), ['a']), rotated := none }
        { fingerprint := some (1, 2), offset := 5,
          rotated_fingerprint := none }).1 =
      if ([('a' : Char)] : List Char).length < 5 then 0 else 5 :=
  c4_no_rotation_size_regression
    { main := some ((1, 2), ['a']), rotated := none }
    { fingerprint := some (1, 2), offset := 5, rotated_fingerprint := none }
    (1, 2) ['a'] rfl (by decide) (by decide)

/-! ## Claims about the tailer -/

/-- C5 (counterexample): the read step performs no clamping.  Seeking a
3-byte file at offset 5 leaves the file position — and hence the new
offset reported by `tell()` — at 5, strictly beyond the file size, so
the read position actually used is not at most the file size. -/
theorem c5_no_clamp_counterexample :
    Observer.tailRead ['a', 'b', 'c'] 5 = ([], 5) ∧
    (['a', 'b', 'c'] : List Char).length < 5 := by
  exact ⟨rfl, by decide⟩

/-- C5 (amended): the tailer seeks to the classifier's offset unclamped (a
position past end-of-file is used as-is and persisted via `tell()`); the
only guard is the classifier itself, which — whenever the main file
exists — never returns an offset beyond the current file size, so in
`observe()` reading never starts past end-of-file. -/
theorem c5_classifier_offset_le_size (fs : FS) (state : TailState)
    (fp : Fingerprint) (content : List Char)
    (hfile : fs.main = some (fp, content)) :
    (RotationDetector.detect_and_handle fs state).1 ≤ content.length := by
  rw [RotationDetector.detect_and_handle]
  split
  · split
    · exact Nat.zero_le _
    · rw [NoRotationHandler.handle, hfile]
      dsimp only
      split
      · exact Nat.zero_le _
      · omega
  · exact Nat.zero_le _

/-- C5 witness. -/
theorem c5_classifier_offset_le_size_witness :
    (RotationDetector.detect_and_handle
        { main := some ((1, 2), ['a', 'b']), rotated := none }
        { fingerprint := some (1, 2), offset := 9,
          rotated_fingerprint := none }).1 ≤
      (['a', 'b'] : List Char).length :=
  c5_classifier_offset_le_size
    { main := some ((1, 2), ['a', 'b']), rotated := none }
    { fingerprint := some (1, 2), offset := 9, rotated_fingerprint := none }
    (1, 2) ['a', 'b'] rfl

/-! ## Claims about `Observer.observe` error paths -/

/-- The status string the claim expects for a missing target file. -/
def claimedStatusNotFound : String :=
  "not found"

/-- C6 (counterexample): when the target file is missing, `observe` does
return `matched=false` without persisting, but the status string is
`"file not found"`, not `"not found"` as claimed. -/
theorem c6_status_string_counterexample :
    Observer.observe scenarioLog { main := none, rotated := none } none []
        defaultState =
      ({ value := false, metadata := Metadata.status statusFileNotFound },
        defaultState, false) ∧
    Metadata.status statusFileNotFound ≠
      Metadata.status claimedStatusNotFound := by
  exact ⟨rfl, by decide⟩

/-- C6 (amended): for every poll where the target file does not exist,
`observe` returns `matched=false` with metadata status
`"file not found"`, and the in-memory state is untouched and not
persisted. -/
theorem c6_missing_file_no_persist (log_file : String)
    (rot : Option Fingerprint) (readErr : Option String)
    (patterns : List Pattern) (state : TailState) :
    Observer.observe log_file { main := none, rotated := rot } readErr
        patterns state =
      ({ value := false, metadata := Metadata.status statusFileNotFound },
        state, false) :=
  rfl

/-- C7: when reading the (existing) file raises an I/O error, `observe`
returns `matched=false` with the error message in metadata and does not
persist state; in particular the offset carried by the in-memory state is
still the stored one (the rotation detector never writes the offset
key), so no progress is claimed. -/
theorem c7_read_failure_no_progress (log_file : String) (fs : FS)
    (msg : String) (patterns : List Pattern) (state : TailState)
    (fp : Fingerprint) (content : List Char)
    (hfile : fs.main = some (fp, content)) :
    Observer.observe log_file fs (some msg) patterns state =
      ({ value := false, metadata := Metadata.readError msg },
        (RotationDetector.detect_and_handle fs state).2, false) ∧
    (RotationDetector.detect_and_handle fs state).2.offset =
      state.offset := by
  constructor
  · simp only [Observer.observe, hfile]
  · exact detect_and_handle_offset_eq fs state

/-- C7 witness. -/
theorem c7_read_failure_no_progress_witness :
    Observer.observe scenarioLog
        { main := some ((1, 2), ['a', 'b']), rotated := none }
        (some scenarioText2) [] defaultState =
      ({ value := false, metadata := Metadata.readError scenarioText2 },
        (RotationDetector.detect_and_handle
          { main := some ((1, 2), ['a', 'b']), rotated := none }
          defaultState).2, false) ∧
    (RotationDetector.detect_and_handle
        { main := some ((1, 2), ['a', 'b']), rotated := none }
        defaultState).2.offset = defaultState.offset :=
  c7_read_failure_no_progress scenarioLog
    { main := some ((1, 2), ['a', 'b']), rotated := none }
    scenarioText2 [] defaultState (1, 2) ['a', 'b'] rfl

/-! ## Claims about `Observer._load_state` -/

/-- C8 (counterexample): an unreadable state file — `open` raising
`OSError`, e.g. permission denied — propagates the exception instead of
returning the defaults: the `except` clause catches only
`json.JSONDecodeError` and `KeyError`. -/
theorem c8_unreadable_counterexample :
    Observer.load_state (StateFileOutcome.raises PyExc.osError) =
      Except.error PyExc.osError ∧
    (Except.error PyExc.osError : Except PyExc TailState) ≠
      Except.ok defaultState := by
  refine ⟨rfl, ?_⟩
  intro hcontra
  exact Except.noConfusion hcontra

/-- C8 (amended): loading returns the persisted state, or the all-defaults
state when no state file exists or when parsing raises
`json.JSONDecodeError` (or a `KeyError` occurs); any other failure —
an I/O error, undecodable bytes, or valid JSON that is not an object —
propagates as an exception instead of yielding the defaults. -/
theorem c8_load_state_failure_cases :
    Observer.load_state StateFileOutcome.missing = Except.ok defaultState ∧
    (∀ e : PyExc, e = PyExc.jsonDecodeError ∨ e = PyExc.keyError →
      Observer.load_state (StateFileOutcome.raises e) =
        Except.ok defaultState) ∧
    (∀ e : PyExc, e ≠ PyExc.jsonDecodeError → e ≠ PyExc.keyError →
      Observer.load_state (StateFileOutcome.raises e) = Except.error e) ∧
    (∀ st : TailState,
      Observer.load_state (StateFileOutcome.parsed true st) =
        Except.ok st) := by
  refine ⟨rfl, ?_, ?_, fun st => rfl⟩
  · intro e he
    simp only [Observer.load_state]
    rw [if_pos he]
  · intro e h1 h2
    simp only [Observer.load_state]
    rw [if_neg]
    intro hor
    rcases hor with h | h
    · exact h1 h
    · exact h2 h

/-- C8 witness: a `json.JSONDecodeError` yields the defaults, while a
`TypeError` (valid JSON that is not an object) propagates. -/
theorem c8_load_state_failure_cases_witness :
    Observer.load_state (StateFileOutcome.raises PyExc.jsonDecodeError) =
      Except.ok defaultState ∧
    Observer.load_state (StateFileOutcome.raises PyExc.typeError) =
      Except.error PyExc.typeError :=
  ⟨c8_load_state_failure_cases.2.1 PyExc.jsonDecodeError (Or.inl rfl),
    c8_load_state_failure_cases.2.2.1 PyExc.typeError (by decide)
      (by decide)⟩

/-! ## The spec's concrete two-poll scenario -/

/-- C9 (counterexample): the scenario file
`"line 1\nERROR: line 2\nline 3\n"` is 28 bytes long, so the offset
persisted by the first `observe` is 28, not 29 as claimed. -/
theorem c9_offset_counterexample :
    (Observer.observe scenarioLog scenarioFS1 none [errorPattern]
        defaultState).2.1.offset = 28 ∧ (28 : Nat) ≠ 29 := by
  exact ⟨rfl, by decide⟩

/-- C9 (amended): on a fresh target whose file holds
`"line 1\nERROR: line 2\nline 3\n"`, the first `observe` matches exactly
`"ERROR: line 2"` and persists offset 28 (end-of-file); after appending
`"ERROR: line 4\n"`, the next `observe` from the persisted state matches
exactly `"ERROR: line 4"` — line 2 is not reported again. -/
theorem c9_two_poll_scenario :
    Observer.observe scenarioLog scenarioFS1 none [errorPattern]
        defaultState =
      ({ value := true,
         metadata := Metadata.matches [scenarioMatch1.toList] scenarioLog },
        { fingerprint := some (1, 2), offset := 28,
          rotated_fingerprint := none }, true) ∧
    Observer.observe scenarioLog scenarioFS2 none [errorPattern]
        { fingerprint := some (1, 2), offset := 28,
          rotated_fingerprint := none } =
      ({ value := true,
         metadata := Metadata.matches [scenarioMatch2.toList] scenarioLog },
        { fingerprint := some (1, 2), offset := 42,
          rotated_fingerprint := none }, true) := by
  exact ⟨rfl, rfl⟩

/-! ## Matched lines are stripped -/

/-- C10: every reported matched line is `line.strip()` of a line read from
the file; consequently it neither starts nor ends with whitespace — in
particular the terminating newline is absent. -/
theorem c10_matches_are_stripped (patterns : List Pattern)
    (lines : List (List Char)) (s : List Char)
    (h : s ∈ match_lines patterns lines) :
    (∃ line, line ∈ lines ∧ s = pyStrip line) ∧
    (∀ c, s.head? = some c → isPySpace c = false) ∧
    (∀ c, s.getLast? = some c → isPySpace c = false) := by
  rw [match_lines, List.mem_filterMap] at h
  obtain ⟨line, hline, hf⟩ := h
  split at hf
  · injection hf with h1
    subst h1
    refine ⟨⟨line, hline, rfl⟩, ?_, ?_⟩
    · intro c hc
      exact pyStrip_head line c hc
    · intro c hc
      exact pyStrip_getLast line c hc
  · exact Option.noConfusion hf

/-- Raw line used in the C10 witness. -/
def c10LineText : String :=
  "  ERROR: boom \t\n"

/-- Its `strip()`. -/
def c10MatchText : String :=
  "ERROR: boom"

/-- C10 witness: the line `"  ERROR: boom \t\n"` is reported as
`"ERROR: boom"`. -/
theorem c10_matches_are_stripped_witness :
    (∃ line, line ∈ [c10LineText.toList] ∧
      c10MatchText.toList = pyStrip line) ∧
    (∀ c, c10MatchText.toList.head? = some c → isPySpace c = false) ∧
    (∀ c, c10MatchText.toList.getLast? = some c → isPySpace c = false) :=
  c10_matches_are_stripped [errorPattern] [c10LineText.toList]
    c10MatchText.toList (by decide)

end Lighthouse
